import Mathlib

/-!
Verification development for the glTF loader (`framework/gltf_loader.cpp`).

The file shallowly embeds the loader's pure logic: accessor byte extraction,
vertex/index format resolution, index-width conversion, primitive parsing,
texture/sampler binding, material texture-slot binding, and the scene-graph
assembly pass (cameras, nodes, scene traversal, default camera).  Machine
integers are modelled as `Nat`/`Int` (no arithmetic in the embedded code
overflows at the claims' inputs), float literals that are only copied around
(camera parameters) are modelled as rationals, byte buffers are `List Nat`,
and fallible C++ operations (`std::vector::at`, `std::map::at`, out-of-bounds
iterator ranges) are made explicit with `Except`/`Option` results.
-/

/-- glTF component types (`TINYGLTF_COMPONENT_TYPE_*`).  `other` stands for any
further value (e.g. `DOUBLE`), which the format switch sends to its `default`
branch. -/
inductive ComponentType
  | byte | ubyte | short | ushort | int | uint | float | other
deriving DecidableEq

/-- glTF accessor element arities (`TINYGLTF_TYPE_*`).  `other` stands for any
further value (e.g. `MAT4`), absent from the per-component-type format maps. -/
inductive AccessorType
  | scalar | vec2 | vec3 | vec4 | other
deriving DecidableEq

/-- The Vulkan formats produced by `get_attribute_format`, plus
`VK_FORMAT_UNDEFINED`. -/
inductive VkFormat
  | undefined
  | r8Sint | r8g8Sint | r8g8b8Sint | r8g8b8a8Sint
  | r8Uint | r8g8Uint | r8g8b8Uint | r8g8b8a8Uint
  | r8Unorm | r8g8Unorm | r8g8b8Unorm | r8g8b8a8Unorm
  | r16Uint | r16g16Uint | r16g16b16Uint | r16g16b16a16Uint
  | r16Unorm | r16g16Unorm | r16g16b16Unorm | r16g16b16a16Unorm
  | r32Sint | r32g32Sint | r32g32b32Sint | r32g32b32a32Sint
  | r32Uint | r32g32Uint | r32g32b32Uint | r32g32b32a32Uint
  | r32Sfloat | r32g32Sfloat | r32g32b32Sfloat | r32g32b32a32Sfloat
deriving DecidableEq

/-- `VK_INDEX_TYPE_UINT16` / `VK_INDEX_TYPE_UINT32`. -/
inductive VkIndexType
  | uint16 | uint32
deriving DecidableEq

/-- Failure modes of the embedded loader code.  `outOfRange` models the
`std::out_of_range` exception thrown by the bounds-checked `.at` accessors of
`std::vector` / `std::map`; `oobRead` marks the out-of-bounds iterator-range
read in `get_attribute_data` (C++ undefined behaviour: the source constructs a
`std::vector` from iterators past the end of `buffer.data` without any check),
which has no defined result value. -/
inductive GltfError
  | outOfRange | oobRead
deriving DecidableEq

/-- A glTF buffer view (the fields `get_attribute_data` reads). -/
structure BufferView where
  buffer : Nat
  byteOffset : Nat
  byteStride : Nat
deriving DecidableEq

/-- A glTF accessor (the fields the loader reads). -/
structure Accessor where
  bufferView : Nat
  byteOffset : Nat
  componentType : ComponentType
  type : AccessorType
  count : Nat
  normalized : Bool
deriving DecidableEq

/-- A glTF buffer: raw bytes. -/
structure GltfBuffer where
  data : List Nat
deriving DecidableEq

/-- The part of `tinygltf::Model` that attribute extraction reads. -/
structure Model where
  accessors : List Accessor
  bufferViews : List BufferView
  buffers : List GltfBuffer
deriving DecidableEq

/-- Size in bytes of one component.  Modelled from the spec: the accessor
abstraction (component type with a byte size, element arity) is produced by
the external document parser (`tinygltf`), which is not part of the sources;
the spec's data model fixes component types int8/uint8 (1 byte),
int16/uint16 (2 bytes) and int32/uint32/float32 (4 bytes). -/
def componentSize : ComponentType → Nat
  | .byte => 1
  | .ubyte => 1
  | .short => 2
  | .ushort => 2
  | .int => 4
  | .uint => 4
  | .float => 4
  | .other => 0

/-- Number of components of one element (scalar 1, vec2 2, vec3 3, vec4 4). -/
def numComponents : AccessorType → Nat
  | .scalar => 1
  | .vec2 => 2
  | .vec3 => 3
  | .vec4 => 4
  | .other => 0

/-- Modelled from the spec: `accessor.ByteStride(bufferView)` is provided by
the external document parser.  The resolved stride is the buffer view's
explicit byte stride when nonzero, and otherwise the tightly packed element
size (component size times component count); the spec's accessor invariant is
that the stride is at least the element size in bytes. -/
def byteStride (a : Accessor) (bv : BufferView) : Nat :=
  if bv.byteStride = 0 then componentSize a.componentType * numComponents a.type
  else bv.byteStride

/-- Embeds `get_attribute_data` (gltf_loader.cpp:106-117).  The three `.at`
lookups are bounds checked and throw `std::out_of_range`; the final
`std::vector` construction from `buffer.data.begin() + startByte` to
`buffer.data.begin() + endByte` is NOT bounds checked, so when
`endByte > buffer.data.size()` the source reads out of bounds (undefined
behaviour), modelled by the distinguished outcome `GltfError.oobRead`. -/
def get_attribute_data (m : Model) (accessorId : Nat) : Except GltfError (List Nat) :=
  match m.accessors.get? accessorId with
  | none => .error .outOfRange
  | some accessor =>
    match m.bufferViews.get? accessor.bufferView with
    | none => .error .outOfRange
    | some bufferView =>
      match m.buffers.get? bufferView.buffer with
      | none => .error .outOfRange
      | some buffer =>
        let stride := byteStride accessor bufferView
        let startByte := accessor.byteOffset + bufferView.byteOffset
        let endByte := startByte + accessor.count * stride
        if endByte ≤ buffer.data.length then
          .ok ((buffer.data.drop startByte).take (endByte - startByte))
        else
          .error .oobRead

/-- Embeds `get_attribute_size` (gltf_loader.cpp:119-122):
`model->accessors.at(accessorId).count`. -/
def get_attribute_size (m : Model) (accessorId : Nat) : Except GltfError Nat :=
  match m.accessors.get? accessorId with
  | none => .error .outOfRange
  | some accessor => .ok accessor.count

/-- Embeds `get_attribute_stride` (gltf_loader.cpp:124-130). -/
def get_attribute_stride (m : Model) (accessorId : Nat) : Except GltfError Nat :=
  match m.accessors.get? accessorId with
  | none => .error .outOfRange
  | some accessor =>
    match m.bufferViews.get? accessor.bufferView with
    | none => .error .outOfRange
    | some bufferView => .ok (byteStride accessor bufferView)

/-- The `BYTE` format map (gltf_loader.cpp:142-145); `none` models the
`std::map::at` throw on a key absent from the map. -/
def mapped_format_byte : AccessorType → Option VkFormat
  | .scalar => some .r8Sint
  | .vec2 => some .r8g8Sint
  | .vec3 => some .r8g8b8Sint
  | .vec4 => some .r8g8b8a8Sint
  | .other => none

/-- The `UNSIGNED_BYTE` plain-integer format map (gltf_loader.cpp:153-156). -/
def mapped_format_ubyte : AccessorType → Option VkFormat
  | .scalar => some .r8Uint
  | .vec2 => some .r8g8Uint
  | .vec3 => some .r8g8b8Uint
  | .vec4 => some .r8g8b8a8Uint
  | .other => none

/-- The `UNSIGNED_BYTE` normalized format map (gltf_loader.cpp:158-161). -/
def mapped_format_ubyte_norm : AccessorType → Option VkFormat
  | .scalar => some .r8Unorm
  | .vec2 => some .r8g8Unorm
  | .vec3 => some .r8g8b8Unorm
  | .vec4 => some .r8g8b8a8Unorm
  | .other => none

/-- The `SHORT` format map (gltf_loader.cpp:176-179).  As in the source, the
entries are the 8-bit signed formats (`VK_FORMAT_R8_SINT` family), not 16-bit
ones. -/
def mapped_format_short : AccessorType → Option VkFormat
  | .scalar => some .r8Sint
  | .vec2 => some .r8g8Sint
  | .vec3 => some .r8g8b8Sint
  | .vec4 => some .r8g8b8a8Sint
  | .other => none

/-- The `UNSIGNED_SHORT` plain-integer format map (gltf_loader.cpp:187-190). -/
def mapped_format_ushort : AccessorType → Option VkFormat
  | .scalar => some .r16Uint
  | .vec2 => some .r16g16Uint
  | .vec3 => some .r16g16b16Uint
  | .vec4 => some .r16g16b16a16Uint
  | .other => none

/-- The `UNSIGNED_SHORT` normalized format map (gltf_loader.cpp:192-195). -/
def mapped_format_ushort_norm : AccessorType → Option VkFormat
  | .scalar => some .r16Unorm
  | .vec2 => some .r16g16Unorm
  | .vec3 => some .r16g16b16Unorm
  | .vec4 => some .r16g16b16a16Unorm
  | .other => none

/-- The `INT` format map (gltf_loader.cpp:210-213). -/
def mapped_format_int : AccessorType → Option VkFormat
  | .scalar => some .r32Sint
  | .vec2 => some .r32g32Sint
  | .vec3 => some .r32g32b32Sint
  | .vec4 => some .r32g32b32a32Sint
  | .other => none

/-- The `UNSIGNED_INT` format map (gltf_loader.cpp:221-224). -/
def mapped_format_uint : AccessorType → Option VkFormat
  | .scalar => some .r32Uint
  | .vec2 => some .r32g32Uint
  | .vec3 => some .r32g32b32Uint
  | .vec4 => some .r32g32b32a32Uint
  | .other => none

/-- The `FLOAT` format map (gltf_loader.cpp:232-235). -/
def mapped_format_float : AccessorType → Option VkFormat
  | .scalar => some .r32Sfloat
  | .vec2 => some .r32g32Sfloat
  | .vec3 => some .r32g32b32Sfloat
  | .vec4 => some .r32g32b32a32Sfloat
  | .other => none

/-- The switch body of `get_attribute_format` (gltf_loader.cpp:138-246): the
normalized flag is consulted only in the `UNSIGNED_BYTE` and `UNSIGNED_SHORT`
branches; the `default` branch yields `VK_FORMAT_UNDEFINED`. -/
def attribute_format (ct : ComponentType) (ty : AccessorType) (normalized : Bool) :
    Option VkFormat :=
  match ct with
  | .byte => mapped_format_byte ty
  | .ubyte => if normalized then mapped_format_ubyte_norm ty else mapped_format_ubyte ty
  | .short => mapped_format_short ty
  | .ushort => if normalized then mapped_format_ushort_norm ty else mapped_format_ushort ty
  | .int => mapped_format_int ty
  | .uint => mapped_format_uint ty
  | .float => mapped_format_float ty
  | .other => some .undefined

/-- Embeds `get_attribute_format` (gltf_loader.cpp:132-249): the accessor is
fetched with `.at`, then the switch over its component type runs. -/
def get_attribute_format (m : Model) (accessorId : Nat) : Except GltfError VkFormat :=
  match m.accessors.get? accessorId with
  | none => .error .outOfRange
  | some accessor =>
    match attribute_format accessor.componentType accessor.type accessor.normalized with
    | none => .error .outOfRange
    | some format => .ok format

/-- One iteration chunk of the `convert_data` loop: it copies the next
`srcStride` source bytes into a destination window of `dstStride` bytes whose
remaining bytes keep their zero initialisation. -/
def convert_go (srcStride dstStride : Nat) : Nat → List Nat → List Nat
  | 0, _ => []
  | k + 1, rest =>
    (rest.take srcStride ++ List.replicate (dstStride - srcStride) 0)
      ++ convert_go srcStride dstStride k (rest.drop srcStride)

/-- Embeds `convert_data` (gltf_loader.cpp:251-265).  The source allocates a
zero-initialised vector of `(srcData.size() / srcStride) * dstStride` bytes and
copies, for each `i` below the element count, the `srcStride` bytes at source
offset `i * srcStride` to destination offset `i * dstStride`.  For
`dstStride ≥ srcStride` (the only call in the source is `(1, 2)`) the
destination windows `[i * dstStride, (i+1) * dstStride)` partition the result,
so the result is the concatenation over elements of the copied chunk followed
by `dstStride - srcStride` untouched zero bytes, which is what `convert_go`
produces element by element. -/
def convert_data (srcData : List Nat) (srcStride dstStride : Nat) : List Nat :=
  convert_go srcStride dstStride (srcData.length / srcStride) srcData

/-- The index-format switch of `GLTFLoader::parse_primitive`
(gltf_loader.cpp:730-746), as a function of the detected format: 8-bit indices
are widened via `convert_data(data, 1, 2)` with `VK_INDEX_TYPE_UINT16`; 16-bit
and 32-bit indices pass through unchanged; any other format logs an error and
sets no index type (the returned `none`). -/
def normalize_index_data (format : VkFormat) (indexData : List Nat) :
    List Nat × Option VkIndexType :=
  if format = .r8Uint then (convert_data indexData 1 2, some .uint16)
  else if format = .r16Uint then (indexData, some .uint16)
  else if format = .r32Uint then (indexData, some .uint32)
  else (indexData, none)

deriving instance DecidableEq for Except

/-- First-match association lookup over a key/value list (the lookup semantics
of `std::map` restricted to what the claims observe; our lists never hold a
duplicate key because insertion goes through `assoc_set`). -/
def assocFind {A B : Type} [DecidableEq A] : List (A × B) → A → Option B
  | [], _ => none
  | (k, v) :: rest, key => if k = key then some v else assocFind rest key

/-- Insert-or-overwrite on a key/value list: the semantics of
`std::map::operator[]` assignment. -/
def assoc_set {A B : Type} [DecidableEq A] : List (A × B) → A → B → List (A × B)
  | [], key, val => [(key, val)]
  | (k, v) :: rest, key, val =>
    if k = key then (key, val) :: rest else (k, v) :: assoc_set rest key val

/-- Per-character lowering (`::tolower` applied character-wise, as in
`parse_primitive`'s `std::transform` over the attribute name). -/
def lowerStr (s : List Char) : List Char :=
  s.map Char.toLower

/-- The literal string "position" the lowered attribute name is compared to. -/
def posLower : List Char := "position".data

/-- The literal key "POSITION" used by the non-indexed lookup. -/
def posUpper : List Char := "POSITION".data

/-- Per-attribute metadata recorded on the submesh (`sg::VertexAttribute`). -/
structure VertexAttribute where
  format : VkFormat
  stride : Nat
deriving DecidableEq

/-- The observable state of an `sg::SubMesh` built by `parse_primitive`.  The
scalar members default to zero and the owning pointers to empty/null: modelled
from the spec, since the `sg::SubMesh` header is not among the provided
sources (GPU `core::Buffer` objects are represented by the byte ranges they
are updated with). -/
structure SubMesh where
  vertices_count : Nat := 0
  vertex_indices : Nat := 0
  vertex_buffers : List (List Char × List Nat) := []
  attributes : List (List Char × VertexAttribute) := []
  index_buffer : Option (List Nat) := none
  index_type : Option VkIndexType := none
deriving DecidableEq

/-- A `tinygltf::Primitive`: attribute-name/accessor map, index accessor id
(negative when absent) and material id (negative when absent). -/
structure Primitive where
  attributes : List (List Char × Nat)
  indices : Int
  material : Int
deriving DecidableEq

/-- The attribute loop of `GLTFLoader::parse_primitive`
(gltf_loader.cpp:694-719).  For each attribute: the name is lowercased, the
accessor bytes are fetched, `vertices_count` is assigned from
`model.accessors.at(id).count` when the lowered name is "position" (the `else`
leg keeps the old count, performing no lookup), the byte range is recorded as
the attribute's vertex buffer, and the resolved format/stride pair is stored
(the source's `vertex_buffers.insert` of `std::map` keeps the first entry per
key; the claims never insert a duplicate key, and we record insertion order). -/
def parse_attributes (m : Model) : List (List Char × Nat) → SubMesh →
    Except GltfError SubMesh
  | [], sm => .ok sm
  | (name, accId) :: rest, sm =>
    let attrib_name := lowerStr name
    match get_attribute_data m accId with
    | .error e => .error e
    | .ok vertex_data =>
      match (if attrib_name = posLower then get_attribute_size m accId
             else .ok sm.vertices_count) with
      | .error e => .error e
      | .ok vc =>
        match get_attribute_format m accId with
        | .error e => .error e
        | .ok format =>
          match get_attribute_stride m accId with
          | .error e => .error e
          | .ok stride =>
            parse_attributes m rest
              { sm with
                vertices_count := vc
                vertex_buffers := sm.vertex_buffers ++ [(attrib_name, vertex_data)]
                attributes := assoc_set sm.attributes attrib_name ⟨format, stride⟩ }

/-- Embeds `GLTFLoader::parse_primitive` (gltf_loader.cpp:690-758).  After the
attribute loop: if an index accessor is declared (`indices >= 0`) the index
count, format and bytes are fetched (the source fetches the bytes twice), the
format switch of `normalize_index_data` runs — its `default` branch only logs,
leaving `index_type` unset — and the (possibly widened) bytes become the index
buffer.  Otherwise `vertices_count` is re-read through the bounds-checked
`attributes.at("POSITION")`, which throws `std::out_of_range` when the exact
key "POSITION" is absent. -/
def parse_primitive (m : Model) (p : Primitive) : Except GltfError SubMesh :=
  match parse_attributes m p.attributes {} with
  | .error e => .error e
  | .ok sm =>
    if 0 ≤ p.indices then
      match get_attribute_size m p.indices.toNat with
      | .error e => .error e
      | .ok cnt =>
        match get_attribute_format m p.indices.toNat with
        | .error e => .error e
        | .ok format =>
          match get_attribute_data m p.indices.toNat with
          | .error e => .error e
          | .ok _vertex_data =>
            match get_attribute_data m p.indices.toNat with
            | .error e => .error e
            | .ok index_data =>
              let nr := normalize_index_data format index_data
              let sm := { sm with vertex_indices := cnt }
              let sm := match nr.2 with
                        | some t => { sm with index_type := some t }
                        | none => sm
              .ok { sm with index_buffer := some nr.1 }
    else
      match assocFind p.attributes posUpper with
      | none => .error .outOfRange
      | some accId =>
        match get_attribute_size m accId with
        | .error e => .error e
        | .ok cnt => .ok { sm with vertices_count := cnt }

/-- An `sg::Sampler` component, identified by an id (its Vulkan state is out
of the claims' scope). -/
structure SgSampler where
  sid : Nat
deriving DecidableEq

/-- Embeds the sampler-assignment branch of the texture loop in
`GLTFLoader::load_scene` (gltf_loader.cpp:452-460): when
`0 <= gltf_texture.sampler && gltf_texture.sampler < samplers.size()` the
document sampler is bound; otherwise a warning is logged (the returned flag)
and the shared default sampler is bound.  The C++ `int` vs `size_t`
comparison converts the index to unsigned, but the short-circuited
`0 <= sampler` guard makes that conversion value preserving. -/
def bind_texture_sampler (samplerId : Int) (samplers : List SgSampler)
    (defaultSampler : SgSampler) : SgSampler × Bool :=
  if 0 ≤ samplerId ∧ samplerId < (samplers.length : Int) then
    ((samplers.get? samplerId.toNat).getD defaultSampler, false)
  else
    (defaultSampler, true)

/-- An `sg::Texture` component, identified by an id. -/
structure SgTexture where
  tid : Nat
deriving DecidableEq

/-- The slice of `tinygltf::Parameter` the material loop reads:
`TextureIndex()` (the parser is external; the other parameter fields feed
`parse_material`, which no claim concerns). -/
structure TextureParameter where
  textureIndex : Int
deriving DecidableEq

/-- A `tinygltf::Material`: the two property bags the texture-slot loop
iterates (`values` and `additionalValues`). -/
structure GltfMaterial where
  values : List (List Char × TextureParameter)
  additionalValues : List (List Char × TextureParameter)
deriving DecidableEq

/-- Whether `pat` occurs at the head of `s`. -/
def leadsWith : List Char → List Char → Bool
  | [], _ => true
  | _ :: _, [] => false
  | a :: as, b :: bs => a = b && leadsWith as bs

/-- Whether `pat` occurs as a contiguous substring of `s`
(`std::string::find(pat) != npos`). -/
def containsSeq (pat : List Char) : List Char → Bool
  | [] => leadsWith pat []
  | c :: rest => leadsWith pat (c :: rest) || containsSeq pat rest

/-- The texture-slot test of the material loop (gltf_loader.cpp:476, 486):
`gltf_value.first.find("Texture") != std::string::npos`. -/
def contains_texture (s : List Char) : Bool :=
  containsSeq ("Texture".data) s

/-- Modelled from the spec: `vkb::to_snake_case` lives in `utils.cpp`, which
is not among the provided sources.  The spec describes it as converting a
property key to a canonical lowercase-with-separators form, with
"diffuseTexture" mapping to "diffuse_texture": each uppercase letter is
replaced by an underscore followed by its lowercase form. -/
def to_snake_case (s : List Char) : List Char :=
  s.flatMap (fun c => if c.isUpper then ['_', c.toLower] else [c])

/-- `textures.at(gltf_value.second.TextureIndex())` on the component vector
(gltf_loader.cpp:480, 490): bounds checked; a negative index converts to a
huge `size_t` and likewise throws `std::out_of_range`. -/
def texture_at (textures : List SgTexture) (i : Int) : Except GltfError SgTexture :=
  if 0 ≤ i then
    match textures.get? i.toNat with
    | some t => .ok t
    | none => .error .outOfRange
  else .error .outOfRange

/-- One property-bag loop of the material pass (gltf_loader.cpp:474-482 and
484-492): every entry whose key contains "Texture" stores
`textures.at(TextureIndex())` under the snake-cased key in the material's
texture map; other entries are skipped. -/
def bind_texture_slots (textures : List SgTexture) :
    List (List Char × TextureParameter) → List (List Char × SgTexture) →
    Except GltfError (List (List Char × SgTexture))
  | [], acc => .ok acc
  | (key, v) :: rest, acc =>
    if contains_texture key then
      match texture_at textures v.textureIndex with
      | .error e => .error e
      | .ok t => bind_texture_slots textures rest (assoc_set acc (to_snake_case key) t)
    else bind_texture_slots textures rest acc

/-- The texture-slot binding of one material in `GLTFLoader::load_scene`
(gltf_loader.cpp:470-495): the `values` bag is processed first, then the
`additionalValues` bag, with identical loop bodies — equivalently one loop
over the concatenation. -/
def bind_material_textures (textures : List SgTexture) (mat : GltfMaterial) :
    Except GltfError (List (List Char × SgTexture)) :=
  bind_texture_slots textures (mat.values ++ mat.additionalValues) []

/-- The perspective parameters carried by a camera.  The source only copies
these float values (no arithmetic is performed on them by the loader), so the
literals are modelled as the rationals they denote in the source text. -/
structure PerspectiveParams where
  aspectRatio : ℚ
  yfov : ℚ
  znear : ℚ
  zfar : ℚ
deriving DecidableEq

/-- A `tinygltf::Camera`: name, type string, perspective parameters. -/
structure GltfCamera where
  name : String
  ctype : String
  perspective : PerspectiveParams
deriving DecidableEq

/-- An `sg::Camera` component (the loader only builds the perspective
variant); `node` is the back-reference set by `set_node`, an index into the
runtime node store. -/
structure SgCamera where
  name : String
  params : PerspectiveParams
  node : Option Nat
deriving DecidableEq

/-- Embeds `GLTFLoader::parse_camera` (gltf_loader.cpp:662-683): a
"perspective" camera copies the four parameters; any other type logs a
warning and returns a null `unique_ptr`, modelled as `none`. -/
def parse_camera (c : GltfCamera) : Option SgCamera :=
  if c.ctype = "perspective" then
    some { name := c.name, params := c.perspective, node := none }
  else none

/-- A `tinygltf::Node`: name, child list, mesh and camera indices (negative
when absent). -/
structure GltfNode where
  name : String
  children : List Nat
  mesh : Int
  camera : Int
deriving DecidableEq

/-- A scene declaration (`tinygltf::Scene`): name and root node indices. -/
structure GltfSceneDecl where
  name : String
  nodes : List Nat
deriving DecidableEq

/-- The slice of the document that the camera/node/scene passes of
`GLTFLoader::load_scene` read.  `meshCount` stands for the number of parsed
mesh components (one per document mesh); the mesh contents are irrelevant to
the graph claims. -/
structure GltfDoc where
  cameras : List GltfCamera
  nodes : List GltfNode
  scenes : List GltfSceneDecl
  meshCount : Nat
deriving DecidableEq

/-- A runtime `sg::Node`: name, parent back-reference and child list (indices
into the runtime node store), attached camera/mesh component indices.  The
node's `sg::Transform` is populated from the document by `parse_node` but no
claim concerns it, so it is not carried. -/
structure RNode where
  name : String
  parent : Option Nat
  children : List Nat
  camera : Option Nat
  mesh : Option Nat
deriving DecidableEq

/-- Point update of a list (mutation of one `sg::Node` through a reference). -/
def listUpdate {A : Type} : List A → Nat → (A → A) → List A
  | [], _, _ => []
  | a :: rest, 0, f => f a :: rest
  | a :: rest, i + 1, f => a :: listUpdate rest i f

/-- Embeds `GLTFLoader::parse_node` (gltf_loader.cpp:617-660) restricted to
graph-visible state: a fresh node with the document name and no parent,
children or components (the transform set-up is omitted, see `RNode`). -/
def parse_node (g : GltfNode) : RNode :=
  { name := g.name, parent := none, children := [], camera := none, mesh := none }

/-- The node loop of `GLTFLoader::load_scene` (gltf_loader.cpp:536-565),
processing document nodes in order at runtime indices `0, 1, ...`: a mesh
index is bound through `meshes.at` (throws when out of range; the
mesh-side `add_node` back-reference is outside the claims and not carried),
and a camera index is bound through `cameras.at` on the camera components
parsed so far, followed by `camera->set_node(*node)` — which dereferences a
null component (crash, `none`) when the document camera was an unsupported
type. -/
def load_nodes_go (doc : GltfDoc) : List GltfNode → Nat → List RNode →
    List (Option SgCamera) → Option (List RNode × List (Option SgCamera))
  | [], _, acc, cams => some (acc, cams)
  | g :: rest, i, acc, cams =>
    let node := parse_node g
    match (if 0 ≤ g.mesh then
             (if g.mesh.toNat < doc.meshCount then
                some { node with mesh := some g.mesh.toNat }
              else none)
           else some node) with
    | none => none
    | some node =>
      if 0 ≤ g.camera then
        match cams.get? g.camera.toNat with
        | some (some cam) =>
          load_nodes_go doc rest (i + 1)
            (acc ++ [{ node with camera := some g.camera.toNat }])
            (listUpdate cams g.camera.toNat (fun _ => some { cam with node := some i }))
        | _ => none
      else load_nodes_go doc rest (i + 1) (acc ++ [node]) cams

/-- Camera parsing (gltf_loader.cpp:529-534) followed by the node loop. -/
def load_nodes (doc : GltfDoc) : Option (List RNode × List (Option SgCamera)) :=
  load_nodes_go doc doc.nodes 0 [] (doc.cameras.map parse_camera)

/-- The breadth-first scene traversal of `GLTFLoader::load_scene`
(gltf_loader.cpp:579-594).  Each queue entry pairs a parent (runtime node
index) with a document node index; popping an entry sets the node's parent
back-reference and appends it to the parent's child list.  The children of
the popped node are then enqueued paired with `node_it.first` — the source's
local `auto &root_node = node_it.first` shadows the outer scene root and is
what `std::ref(root_node)` captures, so each child is enqueued under the
popped entry's PARENT, not under the popped node itself; the embedding
mirrors that faithfully.  Node lookups (`nodes.at`,
`model.nodes[...]`) fail outside the document node range; the C++ loop does
not terminate on a cyclic document, which surfaces here as fuel exhaustion
(`none` for every fuel). -/
def bfs (doc : GltfDoc) : Nat → List (Nat × Nat) → List RNode → Option (List RNode)
  | _, [], nodes => some nodes
  | 0, _ :: _, _ => none
  | fuel + 1, (parentIdx, nodeIdx) :: rest, nodes =>
    match doc.nodes.get? nodeIdx with
    | none => none
    | some g =>
      let nodes := listUpdate nodes nodeIdx (fun n => { n with parent := some parentIdx })
      let nodes := listUpdate nodes parentIdx
        (fun n => { n with children := n.children ++ [nodeIdx] })
      bfs doc fuel (rest ++ g.children.map (fun c => (parentIdx, c))) nodes

/-- The synthetic per-scene root node (`std::make_unique<sg::Node>(name)`). -/
def scene_root_node (name : String) : RNode :=
  { name := name, parent := none, children := [], camera := none, mesh := none }

/-- The scene loop (gltf_loader.cpp:570-598): for each declared scene, a
synthetic root node is created (appended to the runtime node store at index
`r`; in the source it joins the store right after its traversal, and no claim
input references a node index at or beyond the document node count), the
declared root indices are enqueued under it, the traversal runs, and the root
is recorded as a child of the scene. -/
def load_scenes_go (doc : GltfDoc) (fuel : Nat) : List GltfSceneDecl → List RNode →
    List Nat → Option (List RNode × List Nat)
  | [], nodes, roots => some (nodes, roots)
  | sc :: rest, nodes, roots =>
    let r := nodes.length
    match bfs doc fuel (sc.nodes.map (fun i => (r, i))) (nodes ++ [scene_root_node sc.name]) with
    | none => none
    | some nodes2 => load_scenes_go doc fuel rest nodes2 (roots ++ [r])

/-- All declared scenes, starting from the parsed node store. -/
def load_scenes (doc : GltfDoc) (fuel : Nat) (nodes : List RNode) :
    Option (List RNode × List Nat) :=
  load_scenes_go doc fuel doc.scenes nodes []

/-- The default perspective parameters of `GLTFLoader::create_default_camera`
(gltf_loader.cpp:917-920): aspect 1.77, vertical fov 1.0, near 0.1, far
1000.0. -/
def default_camera_params : PerspectiveParams :=
  { aspectRatio := 177 / 100, yfov := 1, znear := 1 / 10, zfar := 1000 }

/-- Embeds `GLTFLoader::create_default_camera` (gltf_loader.cpp:910-923): a
"perspective" `tinygltf::Camera` named "default_camera" run through
`parse_camera`. -/
def create_default_camera : Option SgCamera :=
  parse_camera { name := "default_camera", ctype := "perspective",
                 perspective := default_camera_params }

/-- The graph-visible result of `GLTFLoader::load_scene`: camera components
in registration order (`none` for a null component from an unsupported
projection), the runtime node store, and the scene's root children. -/
structure SgScene where
  cameras : List (Option SgCamera)
  nodes : List RNode
  rootChildren : List Nat
deriving DecidableEq

/-- Embeds the camera/node/scene-assembly portion of `GLTFLoader::load_scene`
(gltf_loader.cpp:529-615); the sampler/image/texture/material/mesh passes
touch disjoint state and are embedded separately.  After the declared scenes
are resolved, a node named "default_camera" is appended to the store, the
default camera is created, linked to it in both directions, registered after
all document cameras, and the node is added as a scene root
(gltf_loader.cpp:603-612) — unconditionally. -/
def load_scene (doc : GltfDoc) (fuel : Nat) : Option SgScene :=
  match load_nodes doc with
  | none => none
  | some (nodes0, cams) =>
    match load_scenes doc fuel nodes0 with
    | none => none
    | some (nodes1, roots) =>
      match create_default_camera with
      | none => none
      | some dc =>
        some { cameras := cams ++ [some { dc with node := some nodes1.length }]
               nodes := nodes1 ++ [{ name := "default_camera", parent := none,
                                     children := [], camera := some cams.length,
                                     mesh := none }]
               rootChildren := roots ++ [nodes1.length] }

/-- The `convert_data` loop at strides 1 to 2 interleaves a zero byte after
every source byte. -/
theorem convert_go_one_two (src : List Nat) :
    convert_go 1 2 src.length src = src.flatMap (fun b => [b, 0]) := by
  induction src with
  | nil => rfl
  | cons b rest ih =>
    simpa [convert_go] using ih

/-- Interleaving a zero byte after every byte doubles the length. -/
theorem flatMap_pair_length (src : List Nat) :
    (src.flatMap (fun b => [b, 0])).length = 2 * src.length := by
  induction src with
  | nil => rfl
  | cons b rest ih => simp [ih]; omega

/-- C4: the Index Width Normalizer widens every 8-bit index sequence to the
16-bit little-endian sequence obtained by appending a zero upper byte to each
element, preserving element count and order ([3,255,0] becomes
[3,0,255,0,0,0]), and returns 16-bit and 32-bit index sequences unchanged. -/
theorem c4_index_width_normalizer :
    (∀ src : List Nat, convert_data src 1 2 = src.flatMap (fun b => [b, 0])) ∧
    (∀ src : List Nat, (convert_data src 1 2).length = 2 * src.length) ∧
    convert_data [3, 255, 0] 1 2 = [3, 0, 255, 0, 0, 0] ∧
    (∀ d : List Nat,
      normalize_index_data VkFormat.r8Uint d = (convert_data d 1 2, some VkIndexType.uint16)) ∧
    (∀ d : List Nat,
      normalize_index_data VkFormat.r16Uint d = (d, some VkIndexType.uint16)) ∧
    (∀ d : List Nat,
      normalize_index_data VkFormat.r32Uint d = (d, some VkIndexType.uint32)) := by
  have hconv : ∀ src : List Nat, convert_data src 1 2 = src.flatMap (fun b => [b, 0]) := by
    intro src
    simpa [convert_data, Nat.div_one] using convert_go_one_two src
  refine ⟨hconv, ?_, by decide, ?_, ?_, ?_⟩
  · intro src
    rw [hconv src]
    exact flatMap_pair_length src
  · intro d; rfl
  · intro d; rfl
  · intro d; rfl

/-- C3 counterexample: a normalized 32-bit integer input does NOT resolve to
the undefined format — the `INT` branch of the switch ignores the normalized
flag and yields `VK_FORMAT_R32_SINT`. -/
theorem c3_normalized_int32_not_undefined :
    attribute_format ComponentType.int AccessorType.scalar true = some VkFormat.r32Sint ∧
    attribute_format ComponentType.int AccessorType.scalar true ≠ some VkFormat.undefined := by
  decide

/-- C3 (amended): the Format Resolver is a pure total function over the 7
component types × 4 arities × 2 normalized-flag values, and on that whole
domain it always yields a defined format; the normalized flag only influences
the unsigned 8-bit and 16-bit branches, and `VK_FORMAT_UNDEFINED` arises
exactly from component types outside the seven (the switch default). -/
theorem c3_format_resolver_total :
    (∀ ct ty nrm, ct ≠ ComponentType.other → ty ≠ AccessorType.other →
      ∃ f, attribute_format ct ty nrm = some f ∧ f ≠ VkFormat.undefined) ∧
    (∀ ct ty nrm nrm2, ct ≠ ComponentType.ubyte → ct ≠ ComponentType.ushort →
      attribute_format ct ty nrm = attribute_format ct ty nrm2) ∧
    (∀ ty nrm, attribute_format ComponentType.other ty nrm = some VkFormat.undefined) := by
  refine ⟨?_, ?_, ?_⟩
  · intro ct ty nrm hct hty
    cases ct <;> cases ty <;> cases nrm <;>
      first
        | exact absurd rfl hct
        | exact absurd rfl hty
        | exact ⟨_, rfl, by decide⟩
  · intro ct ty nrm nrm2 h1 h2
    cases ct <;>
      first
        | exact absurd rfl h1
        | exact absurd rfl h2
        | rfl
  · intro ty nrm; rfl

/-- C3 witness: a concrete point of the supported domain where the resolver
yields a defined format. -/
theorem c3_format_resolver_total_witness :
    ∃ f, attribute_format ComponentType.uint AccessorType.vec3 true = some f ∧
      f ≠ VkFormat.undefined :=
  c3_format_resolver_total.1 ComponentType.uint AccessorType.vec3 true
    (by decide) (by decide)

/-- C8: a texture's sampler index in range [0, number of parsed samplers)
binds that sampler with no warning; an absent/negative or out-of-range index
binds the shared default sampler with a logged warning — the binding never
fails. -/
theorem c8_sampler_binding (samplerId : Int) (samplers : List SgSampler)
    (d s : SgSampler) :
    (0 ≤ samplerId → samplers.get? samplerId.toNat = some s →
      bind_texture_sampler samplerId samplers d = (s, false)) ∧
    (samplerId < 0 ∨ (samplers.length : Int) ≤ samplerId →
      bind_texture_sampler samplerId samplers d = (d, true)) := by
  constructor
  · intro h0 hs
    have hlt : samplerId.toNat < samplers.length := (List.get?_eq_some.mp hs).1
    have hcast : (samplerId.toNat : Int) = samplerId := Int.toNat_of_nonneg h0
    have hlt2 : samplerId < (samplers.length : Int) := by
      rw [← hcast]; exact_mod_cast hlt
    unfold bind_texture_sampler
    rw [if_pos ⟨h0, hlt2⟩, hs]
    rfl
  · intro h
    unfold bind_texture_sampler
    rw [if_neg]
    rintro ⟨h1, h2⟩
    rcases h with h | h <;> omega

/-- C8 witness: an in-range index binds the document sampler silently; an
out-of-range and a negative index both bind the default with a warning. -/
theorem c8_sampler_binding_witness :
    bind_texture_sampler 1 [⟨4⟩, ⟨7⟩] ⟨9⟩ = (⟨7⟩, false) ∧
    bind_texture_sampler 5 [⟨4⟩, ⟨7⟩] ⟨9⟩ = (⟨9⟩, true) ∧
    bind_texture_sampler (-1) [⟨4⟩, ⟨7⟩] ⟨9⟩ = (⟨9⟩, true) :=
  ⟨(c8_sampler_binding 1 [⟨4⟩, ⟨7⟩] ⟨9⟩ ⟨7⟩).1 (by decide) (by decide),
   (c8_sampler_binding 5 [⟨4⟩, ⟨7⟩] ⟨9⟩ ⟨7⟩).2 (Or.inr (by decide)),
   (c8_sampler_binding (-1) [⟨4⟩, ⟨7⟩] ⟨9⟩ ⟨7⟩).2 (Or.inl (by decide))⟩

/-- Looking up the just-written key finds the written value. -/
theorem assocFind_set_self {A B : Type} [DecidableEq A] (l : List (A × B)) (k : A) (v : B) :
    assocFind (assoc_set l k v) k = some v := by
  induction l with
  | nil => simp [assoc_set, assocFind]
  | cons p rest ih =>
    obtain ⟨a, b⟩ := p
    by_cases h : a = k
    · simp [assoc_set, assocFind, h]
    · simp [assoc_set, assocFind, h, ih]

/-- Writing one key leaves every other key's lookup unchanged. -/
theorem assocFind_set_ne {A B : Type} [DecidableEq A] (l : List (A × B)) (k k2 : A) (v : B)
    (h : k2 ≠ k) : assocFind (assoc_set l k v) k2 = assocFind l k2 := by
  have hk : k ≠ k2 := fun hh => h hh.symm
  induction l with
  | nil => simp [assoc_set, assocFind, hk]
  | cons p rest ih =>
    obtain ⟨a, b⟩ := p
    by_cases ha : a = k
    · subst ha
      simp [assoc_set, assocFind, hk]
    · simp [assoc_set, assocFind, ha, ih]

/-- A slot present before the texture-slot loop is still present after it. -/
theorem bind_texture_slots_preserves {textures : List SgTexture}
    {entries : List (List Char × TextureParameter)}
    {acc res : List (List Char × SgTexture)}
    (h : bind_texture_slots textures entries acc = .ok res) (k : List Char)
    (hk : (assocFind acc k).isSome = true) : (assocFind res k).isSome = true := by
  induction entries generalizing acc with
  | nil =>
    simp only [bind_texture_slots] at h
    cases h
    exact hk
  | cons e rest ih =>
    obtain ⟨key, v⟩ := e
    simp only [bind_texture_slots] at h
    by_cases hc : contains_texture key
    · rw [if_pos hc] at h
      cases ht : texture_at textures v.textureIndex with
      | error e2 => rw [ht] at h; exact absurd h (by simp)
      | ok t =>
        rw [ht] at h
        apply ih h
        by_cases hkk : to_snake_case key = k
        · rw [← hkk] at hk ⊢
          rw [assocFind_set_self]
          rfl
        · rwa [assocFind_set_ne _ _ _ _ (fun hh => hkk hh.symm)]
    · rw [if_neg hc] at h
      exact ih h hk

/-- Processing an entry whose key contains "Texture" leaves its snake-cased
slot present in the final map. -/
theorem bind_texture_slots_adds {textures : List SgTexture}
    {entries : List (List Char × TextureParameter)}
    {acc res : List (List Char × SgTexture)}
    (h : bind_texture_slots textures entries acc = .ok res)
    {key : List Char} {v : TextureParameter}
    (hmem : (key, v) ∈ entries) (hct : contains_texture key = true) :
    (assocFind res (to_snake_case key)).isSome = true := by
  induction entries generalizing acc with
  | nil => cases hmem
  | cons e rest ih =>
    obtain ⟨key2, v2⟩ := e
    simp only [bind_texture_slots] at h
    rcases List.mem_cons.mp hmem with heq | hmem2
    · obtain ⟨hk, hv⟩ := Prod.mk.injEq .. ▸ heq
      subst hk
      rw [if_pos hct] at h
      cases ht : texture_at textures v2.textureIndex with
      | error e2 => rw [ht] at h; exact absurd h (by simp)
      | ok t =>
        rw [ht] at h
        apply bind_texture_slots_preserves h
        rw [assocFind_set_self]
        rfl
    · by_cases hc : contains_texture key2
      · rw [if_pos hc] at h
        cases ht : texture_at textures v2.textureIndex with
        | error e2 => rw [ht] at h; exact absurd h (by simp)
        | ok t =>
          rw [ht] at h
          exact ih h hmem2
      · rw [if_neg hc] at h
        exact ih h hmem2

/-- Every slot in the final map was written while processing some entry whose
key contains "Texture" and snake-cases to the slot's name. -/
theorem bind_texture_slots_origin {textures : List SgTexture}
    {entries : List (List Char × TextureParameter)}
    {acc res : List (List Char × SgTexture)}
    (h : bind_texture_slots textures entries acc = .ok res) (k : List Char)
    (hk : (assocFind res k).isSome = true) :
    (assocFind acc k).isSome = true ∨
      ∃ key v, (key, v) ∈ entries ∧ contains_texture key = true ∧
        to_snake_case key = k := by
  induction entries generalizing acc with
  | nil =>
    simp only [bind_texture_slots] at h
    cases h
    exact Or.inl hk
  | cons e rest ih =>
    obtain ⟨key, v⟩ := e
    simp only [bind_texture_slots] at h
    by_cases hc : contains_texture key
    · rw [if_pos hc] at h
      cases ht : texture_at textures v.textureIndex with
      | error e2 => rw [ht] at h; exact absurd h (by simp)
      | ok t =>
        rw [ht] at h
        rcases ih h with hacc | ⟨key2, v2, hmem, hct2, hsnake⟩
        · by_cases hkk : to_snake_case key = k
          · exact Or.inr ⟨key, v, by simp, hc, hkk⟩
          · left
            rwa [assocFind_set_ne _ _ _ _ (fun hh => hkk hh.symm)] at hacc
        · exact Or.inr ⟨key2, v2, by simp [hmem], hct2, hsnake⟩
    · rw [if_neg hc] at h
      rcases ih h with hacc | ⟨key2, v2, hmem, hct2, hsnake⟩
      · exact Or.inl hacc
      · exact Or.inr ⟨key2, v2, by simp [hmem], hct2, hsnake⟩

/-- C9: during material binding, every property key containing "Texture" —
from the core value bag or the additional value bag — is recorded as a
texture slot named by the snake-cased key, keys without "Texture" create no
slot, and "diffuseTexture" snake-cases to "diffuse_texture". -/
theorem c9_texture_slots (textures : List SgTexture) (mat : GltfMaterial)
    (res : List (List Char × SgTexture))
    (h : bind_material_textures textures mat = .ok res) :
    (∀ key v, (key, v) ∈ mat.values ++ mat.additionalValues →
      contains_texture key = true →
      (assocFind res (to_snake_case key)).isSome = true) ∧
    (∀ k, (assocFind res k).isSome = true →
      ∃ key v, (key, v) ∈ mat.values ++ mat.additionalValues ∧
        contains_texture key = true ∧ to_snake_case key = k) ∧
    to_snake_case ("diffuseTexture".data) = "diffuse_texture".data := by
  refine ⟨?_, ?_, by decide⟩
  · intro key v hmem hct
    exact bind_texture_slots_adds h hmem hct
  · intro k hk
    rcases bind_texture_slots_origin h k hk with hacc | hex
    · simp [assocFind] at hacc
    · exact hex

/-- C9 witness: a material with keys "diffuseTexture" (core bag),
"normalTexture" (additional bag) and "shininess" produces exactly the two
snake-cased slots. -/
theorem c9_texture_slots_witness :
    (assocFind [("diffuse_texture".data, (⟨0⟩ : SgTexture)),
                ("normal_texture".data, (⟨0⟩ : SgTexture))]
      (to_snake_case ("diffuseTexture".data))).isSome = true :=
  (c9_texture_slots [⟨0⟩]
    { values := [("diffuseTexture".data, ⟨0⟩)],
      additionalValues := [("normalTexture".data, ⟨0⟩), ("shininess".data, ⟨0⟩)] }
    [("diffuse_texture".data, ⟨0⟩), ("normal_texture".data, ⟨0⟩)]
    (by decide)).1 ("diffuseTexture".data) ⟨0⟩ (by decide) (by decide)

/-- C2 (amended): when the combined offset plus N×S fits the buffer, the
extraction returns exactly the N×S bytes in [O, O+N×S); when it does not fit,
the source performs NO bounds check — the read runs out of bounds (C++
undefined behaviour, the `oobRead` outcome), and no OutOfRange error is
raised for the byte range (OutOfRange arises only from the accessor /
buffer-view / buffer index lookups). -/
theorem c2_attribute_extraction (m : Model) (accessorId : Nat)
    (a : Accessor) (bv : BufferView) (buf : GltfBuffer)
    (ha : m.accessors.get? accessorId = some a)
    (hb : m.bufferViews.get? a.bufferView = some bv)
    (hc : m.buffers.get? bv.buffer = some buf) :
    (a.byteOffset + bv.byteOffset + a.count * byteStride a bv ≤ buf.data.length →
      ∃ bytes, get_attribute_data m accessorId = .ok bytes ∧
        bytes.length = a.count * byteStride a bv ∧
        ∀ i < a.count * byteStride a bv,
          bytes.get? i = buf.data.get? (a.byteOffset + bv.byteOffset + i)) ∧
    (buf.data.length < a.byteOffset + bv.byteOffset + a.count * byteStride a bv →
      get_attribute_data m accessorId = .error .oobRead) := by
  simp only [get_attribute_data, ha, hb, hc]
  constructor
  · intro hle
    rw [if_pos hle]
    refine ⟨_, rfl, ?_, ?_⟩
    · rw [Nat.add_sub_cancel_left, List.length_take, List.length_drop]
      omega
    · intro i hi
      rw [Nat.add_sub_cancel_left]
      rw [List.get?_take hi, List.get?_drop]
  · intro hgt
    rw [if_neg (by omega)]

/-- The C2 witness model: accessor 0 reads 2 elements of stride 2 at combined
offset 2 of a 7-byte buffer (in range). -/
def c2okModel : Model :=
  { accessors := [{ bufferView := 0, byteOffset := 1, componentType := .ubyte,
                    type := .vec2, count := 2, normalized := false }],
    bufferViews := [{ buffer := 0, byteOffset := 1, byteStride := 0 }],
    buffers := [{ data := [9, 8, 7, 6, 5, 4, 3] }] }

/-- C2 witness: on the concrete in-range model the extraction yields exactly
the 4 bytes at offsets 2..5. -/
theorem c2_attribute_extraction_witness :
    ∃ bytes, get_attribute_data c2okModel 0 = .ok bytes ∧
      bytes.length = 2 * 2 ∧
      ∀ i < 2 * 2, bytes.get? i = [9, 8, 7, 6, 5, 4, 3].get? (2 + i) := by
  have h := (c2_attribute_extraction c2okModel 0
    { bufferView := 0, byteOffset := 1, componentType := .ubyte,
      type := .vec2, count := 2, normalized := false }
    { buffer := 0, byteOffset := 1, byteStride := 0 }
    { data := [9, 8, 7, 6, 5, 4, 3] }
    (by decide) (by decide) (by decide)).1 (by decide)
  simpa using h

/-- The C2 failing input: accessor 0 reads 2 elements of stride 1 at combined
offset 3 of a 4-byte buffer — the computed end offset 5 exceeds the buffer
length. -/
def c2badModel : Model :=
  { accessors := [{ bufferView := 0, byteOffset := 3, componentType := .ubyte,
                    type := .scalar, count := 2, normalized := false }],
    bufferViews := [{ buffer := 0, byteOffset := 0, byteStride := 0 }],
    buffers := [{ data := [10, 11, 12, 13] }] }

/-- C2 counterexample: with the computed range exceeding the buffer length,
the extraction does NOT fail with an OutOfRange error — it performs the
unchecked out-of-bounds read (undefined behaviour in the source). -/
theorem c2_no_out_of_range_error :
    get_attribute_data c2badModel 0 ≠ Except.error GltfError.outOfRange ∧
    get_attribute_data c2badModel 0 = Except.error GltfError.oobRead := by
  decide

/-- The attribute loop never touches the index-related submesh fields. -/
theorem parse_attributes_index_fields {m : Model} (attrs : List (List Char × Nat)) :
    ∀ {sm sm2 : SubMesh}, parse_attributes m attrs sm = .ok sm2 →
      sm2.index_type = sm.index_type ∧ sm2.index_buffer = sm.index_buffer ∧
        sm2.vertex_indices = sm.vertex_indices := by
  induction attrs with
  | nil =>
    intro sm sm2 h
    simp only [parse_attributes] at h
    cases h
    exact ⟨rfl, rfl, rfl⟩
  | cons pr rest ih =>
    intro sm sm2 h
    obtain ⟨name, accId⟩ := pr
    simp only [parse_attributes] at h
    cases hd : get_attribute_data m accId with
    | error e => rw [hd] at h; exact absurd h (by simp)
    | ok vertex_data =>
      rw [hd] at h
      cases hv : (if lowerStr name = posLower then get_attribute_size m accId
                  else .ok sm.vertices_count) with
      | error e => rw [hv] at h; exact absurd h (by simp)
      | ok vc =>
        rw [hv] at h
        cases hf : get_attribute_format m accId with
        | error e => rw [hf] at h; exact absurd h (by simp)
        | ok fmt =>
          rw [hf] at h
          cases hs : get_attribute_stride m accId with
          | error e => rw [hs] at h; exact absurd h (by simp)
          | ok stride =>
            rw [hs] at h
            dsimp only at h
            simpa using ih h

/-- When no attribute's lowercased name is "position", the attribute loop
leaves `vertices_count` unchanged. -/
theorem parse_attributes_no_position {m : Model} (attrs : List (List Char × Nat)) :
    ∀ {sm sm2 : SubMesh}, parse_attributes m attrs sm = .ok sm2 →
      (∀ pr ∈ attrs, lowerStr pr.1 ≠ posLower) →
      sm2.vertices_count = sm.vertices_count := by
  induction attrs with
  | nil =>
    intro sm sm2 h _
    simp only [parse_attributes] at h
    cases h
    rfl
  | cons pr rest ih =>
    intro sm sm2 h hnp
    obtain ⟨name, accId⟩ := pr
    have hname : lowerStr name ≠ posLower := hnp (name, accId) (by simp)
    simp only [parse_attributes] at h
    cases hd : get_attribute_data m accId with
    | error e => rw [hd] at h; exact absurd h (by simp)
    | ok vertex_data =>
      rw [hd, if_neg hname] at h
      cases hf : get_attribute_format m accId with
      | error e => rw [hf] at h; exact absurd h (by simp)
      | ok fmt =>
        rw [hf] at h
        cases hs : get_attribute_stride m accId with
        | error e => rw [hs] at h; exact absurd h (by simp)
        | ok stride =>
          rw [hs] at h
          dsimp only at h
          simpa using ih h (fun q hq => hnp q (by simp [hq]))

/-- C5 (amended): an index accessor resolving to a format other than 8-, 16-
or 32-bit unsigned integer does NOT abort the primitive: the switch `default`
only logs, so the submesh is still returned, carrying the raw (unconverted)
index bytes as its index buffer and an index type that was never set. -/
theorem c5_invalid_index_format_proceeds (m : Model) (p : Primitive)
    (sm0 : SubMesh) (cnt : Nat) (f : VkFormat) (d : List Nat)
    (hidx : 0 ≤ p.indices)
    (hloop : parse_attributes m p.attributes {} = .ok sm0)
    (hcnt : get_attribute_size m p.indices.toNat = .ok cnt)
    (hfmt : get_attribute_format m p.indices.toNat = .ok f)
    (hdat : get_attribute_data m p.indices.toNat = .ok d)
    (hbad : f ≠ VkFormat.r8Uint ∧ f ≠ VkFormat.r16Uint ∧ f ≠ VkFormat.r32Uint) :
    ∃ sm, parse_primitive m p = .ok sm ∧ sm.index_buffer = some d ∧
      sm.index_type = none ∧ sm.vertex_indices = cnt := by
  have hit : sm0.index_type = none :=
    (parse_attributes_index_fields p.attributes hloop).1
  have hnorm : normalize_index_data f d = (d, none) := by
    simp [normalize_index_data, hbad.1, hbad.2.1, hbad.2.2]
  refine ⟨{ sm0 with vertex_indices := cnt, index_buffer := some d }, ?_, rfl, hit, rfl⟩
  unfold parse_primitive
  rw [hloop]
  dsimp only
  rw [if_pos hidx, hcnt]
  dsimp only
  rw [hfmt]
  dsimp only
  rw [hdat]
  dsimp only
  rw [hnorm]

/-- The C5 failing input: a primitive whose index accessor holds scalar
32-bit floats (detected format `VK_FORMAT_R32_SFLOAT`, none of the three
unsigned-integer index formats). -/
def c5model : Model :=
  { accessors := [{ bufferView := 0, byteOffset := 0, componentType := .float,
                    type := .scalar, count := 2, normalized := false }],
    bufferViews := [{ buffer := 0, byteOffset := 0, byteStride := 0 }],
    buffers := [{ data := [1, 2, 3, 4, 5, 6, 7, 8] }] }

/-- The C5 primitive: no vertex attributes, index accessor 0. -/
def c5prim : Primitive := { attributes := [], indices := 0, material := -1 }

/-- C5 counterexample: with a float index accessor, primitive construction is
NOT aborted — `parse_primitive` still returns a submesh, and that submesh
carries an index buffer (built from the raw bytes). -/
theorem c5_primitive_not_aborted :
    ∃ sm, parse_primitive c5model c5prim = .ok sm ∧ sm.index_buffer ≠ none := by
  refine ⟨{ vertices_count := 0, vertex_indices := 2, vertex_buffers := [],
            attributes := [], index_buffer := some [1, 2, 3, 4, 5, 6, 7, 8],
            index_type := none }, by decide, by decide⟩

/-- C5 witness: the amended behaviour at the concrete failing input. -/
theorem c5_invalid_index_format_proceeds_witness :
    ∃ sm, parse_primitive c5model c5prim = .ok sm ∧
      sm.index_buffer = some [1, 2, 3, 4, 5, 6, 7, 8] ∧
      sm.index_type = none ∧ sm.vertex_indices = 2 :=
  c5_invalid_index_format_proceeds c5model c5prim {} 2 VkFormat.r32Sfloat
    [1, 2, 3, 4, 5, 6, 7, 8] (by decide) (by decide) (by decide) (by decide)
    (by decide) ⟨by decide, by decide, by decide⟩

/-- C10: primitive materialisation determines the vertex count only from a
position attribute.  With an index accessor present, `vertices_count` stays
zero unless some attribute's lowercased name is "position"; without one, the
count is read from the attribute keyed exactly "POSITION", and if that key is
absent the operation fails with the out-of-range lookup error of
`attributes.at("POSITION")` instead of returning a primitive. -/
theorem c10_vertices_count (m : Model) (p : Primitive) :
    (∀ sm, 0 ≤ p.indices → (∀ pr ∈ p.attributes, lowerStr pr.1 ≠ posLower) →
      parse_primitive m p = .ok sm → sm.vertices_count = 0) ∧
    (p.indices < 0 → assocFind p.attributes posUpper = none →
      parse_primitive m p ≠ .error .oobRead →
      parse_primitive m p = .error .outOfRange) ∧
    (∀ sm accId cnt, p.indices < 0 → assocFind p.attributes posUpper = some accId →
      get_attribute_size m accId = .ok cnt →
      parse_primitive m p = .ok sm → sm.vertices_count = cnt) := by
  refine ⟨?_, ?_, ?_⟩
  · intro sm hidx hnp h
    unfold parse_primitive at h
    cases hloop : parse_attributes m p.attributes {} with
    | error e => rw [hloop] at h; exact absurd h (by simp)
    | ok sm0 =>
      rw [hloop] at h
      dsimp only at h
      rw [if_pos hidx] at h
      have hvc : sm0.vertices_count = 0 :=
        parse_attributes_no_position p.attributes hloop hnp
      cases hcnt : get_attribute_size m p.indices.toNat with
      | error e => rw [hcnt] at h; exact absurd h (by simp)
      | ok cnt =>
        rw [hcnt] at h
        dsimp only at h
        cases hfmt : get_attribute_format m p.indices.toNat with
        | error e => rw [hfmt] at h; exact absurd h (by simp)
        | ok format =>
          rw [hfmt] at h
          dsimp only at h
          cases hdat : get_attribute_data m p.indices.toNat with
          | error e => rw [hdat] at h; exact absurd h (by simp)
          | ok index_data =>
            rw [hdat] at h
            dsimp only at h
            cases hnr : (normalize_index_data format index_data).2 with
            | none =>
              rw [hnr] at h
              dsimp only at h
              cases h
              exact hvc
            | some t =>
              rw [hnr] at h
              dsimp only at h
              cases h
              exact hvc
  · intro hneg hfind hnoob
    unfold parse_primitive at hnoob ⊢
    cases hloop : parse_attributes m p.attributes {} with
    | error e =>
      rw [hloop] at hnoob
      dsimp only at hnoob ⊢
      cases e
      · rfl
      · exact absurd rfl hnoob
    | ok sm0 =>
      dsimp only
      rw [if_neg (by omega), hfind]
  · intro sm accId cnt hneg hfind hcnt h
    unfold parse_primitive at h
    cases hloop : parse_attributes m p.attributes {} with
    | error e => rw [hloop] at h; exact absurd h (by simp)
    | ok sm0 =>
      rw [hloop] at h
      dsimp only at h
      rw [if_neg (by omega), hfind] at h
      dsimp only at h
      rw [hcnt] at h
      dsimp only at h
      cases h
      rfl

/-- The C10 witness model and primitive: no index accessor and no "POSITION"
attribute key. -/
def c10model : Model := { accessors := [], bufferViews := [], buffers := [] }

/-- A non-indexed primitive without any attribute. -/
def c10prim : Primitive := { attributes := [], indices := -1, material := -1 }

/-- C10 witness: the non-indexed primitive with no "POSITION" key fails with
the out-of-range lookup error. -/
theorem c10_vertices_count_witness :
    parse_primitive c10model c10prim = .error .outOfRange :=
  (c10_vertices_count c10model c10prim).2.1 (by decide) (by decide) (by decide)

/-- Point updates preserve list length. -/
theorem listUpdate_length {A : Type} (l : List A) (i : Nat) (f : A → A) :
    (listUpdate l i f).length = l.length := by
  induction l generalizing i with
  | nil => rfl
  | cons a rest ih =>
    cases i with
    | zero => rfl
    | succ j => simp [listUpdate, ih]

/-- The node loop only point-updates the camera component list, so it
preserves its length. -/
theorem load_nodes_go_cams_length (doc : GltfDoc) (gs : List GltfNode) :
    ∀ {i : Nat} {acc : List RNode} {cams : List (Option SgCamera)}
      {res : List RNode × List (Option SgCamera)},
      load_nodes_go doc gs i acc cams = some res → res.2.length = cams.length := by
  induction gs with
  | nil =>
    intro i acc cams res h
    simp only [load_nodes_go] at h
    cases h
    rfl
  | cons g rest ih =>
    intro i acc cams res h
    simp only [load_nodes_go] at h
    cases hm : (if 0 ≤ g.mesh then
                  (if g.mesh.toNat < doc.meshCount then
                     some { parse_node g with mesh := some g.mesh.toNat }
                   else none)
                else some (parse_node g)) with
    | none => rw [hm] at h; exact absurd h (by simp)
    | some node =>
      rw [hm] at h
      dsimp only at h
      by_cases hc : 0 ≤ g.camera
      · rw [if_pos hc] at h
        cases hcam : cams.get? g.camera.toNat with
        | none => rw [hcam] at h; exact absurd h (by simp)
        | some oc =>
          rw [hcam] at h
          cases oc with
          | none => exact absurd h (by simp)
          | some cam =>
            dsimp only at h
            have := ih h
            rwa [listUpdate_length] at this
      · rw [if_neg hc] at h
        exact ih h

/-- C7: for every document on which the load succeeds (including the empty
one), the resulting scene holds the synthesized default camera — a
perspective camera named "default_camera" with aspect ratio 1.77, vertical
fov 1.0, near 0.1 and far 1000.0 — registered immediately after all
document-defined cameras, linked in both directions to a synthesized node,
and that node is one of the scene's roots. -/
theorem c7_default_camera (doc : GltfDoc) (fuel : Nat) (s : SgScene)
    (h : load_scene doc fuel = some s) :
    default_camera_params =
      { aspectRatio := 177 / 100, yfov := 1, znear := 1 / 10, zfar := 1000 } ∧
    ∃ ni, s.cameras.get? doc.cameras.length =
        some (some { name := "default_camera", params := default_camera_params,
                     node := some ni }) ∧
      s.cameras.length = doc.cameras.length + 1 ∧
      (∃ nd, s.nodes.get? ni = some nd ∧ nd.camera = some doc.cameras.length ∧
        nd.name = "default_camera") ∧
      ni ∈ s.rootChildren := by
  refine ⟨rfl, ?_⟩
  unfold load_scene at h
  cases hln : load_nodes doc with
  | none => rw [hln] at h; exact absurd h (by simp)
  | some pr =>
    obtain ⟨nodes0, cams⟩ := pr
    rw [hln] at h
    dsimp only at h
    cases hls : load_scenes doc fuel nodes0 with
    | none => rw [hls] at h; exact absurd h (by simp)
    | some pr2 =>
      obtain ⟨nodes1, roots⟩ := pr2
      rw [hls] at h
      dsimp only at h
      rw [show create_default_camera =
            some { name := "default_camera", params := default_camera_params,
                   node := none } from rfl] at h
      dsimp only at h
      have hcamlen : cams.length = doc.cameras.length := by
        have hlen := load_nodes_go_cams_length doc doc.nodes hln
        simpa using hlen
      cases h
      refine ⟨nodes1.length, ?_, ?_,
        ⟨{ name := "default_camera", parent := none, children := [],
           camera := some cams.length, mesh := none }, ?_, ?_, rfl⟩, ?_⟩
      · rw [← hcamlen]
        exact List.get?_concat_length cams _
      · simp [hcamlen]
      · exact List.get?_concat_length nodes1 _
      · dsimp only
        rw [hcamlen]
      · simp

/-- The C7 witness document: zero cameras, zero nodes, zero scenes. -/
def c7doc : GltfDoc := { cameras := [], nodes := [], scenes := [], meshCount := 0 }

/-- The scene the loader produces from the empty document. -/
def c7scene : SgScene :=
  { cameras := [some { name := "default_camera", params := default_camera_params,
                       node := some 0 }],
    nodes := [{ name := "default_camera", parent := none, children := [],
                camera := some 0, mesh := none }],
    rootChildren := [0] }

/-- C7 witness: even the empty document yields the default camera on a root
node. -/
theorem c7_default_camera_witness :
    default_camera_params =
      { aspectRatio := 177 / 100, yfov := 1, znear := 1 / 10, zfar := 1000 } ∧
    ∃ ni, c7scene.cameras.get? c7doc.cameras.length =
        some (some { name := "default_camera", params := default_camera_params,
                     node := some ni }) ∧
      c7scene.cameras.length = c7doc.cameras.length + 1 ∧
      (∃ nd, c7scene.nodes.get? ni = some nd ∧
        nd.camera = some c7doc.cameras.length ∧ nd.name = "default_camera") ∧
      ni ∈ c7scene.rootChildren :=
  c7_default_camera c7doc 0 c7scene (by rfl)

/-- The C1 failing input: roots = [0], node 0 with children [1,2], node 1
with children [3]. -/
def c1doc : GltfDoc :=
  { cameras := [], meshCount := 0,
    nodes := [{ name := "n0", children := [1, 2], mesh := -1, camera := -1 },
              { name := "n1", children := [3], mesh := -1, camera := -1 },
              { name := "n2", children := [], mesh := -1, camera := -1 },
              { name := "n3", children := [], mesh := -1, camera := -1 }],
    scenes := [{ name := "s", nodes := [0] }] }

/-- The scene the loader actually produces from `c1doc`: every document node
hangs directly off the synthetic scene root (index 4). -/
def c1scene : SgScene :=
  { cameras := [some { name := "default_camera", params := default_camera_params,
                       node := some 5 }],
    nodes := [
      { name := "n0", parent := some 4, children := [], camera := none, mesh := none },
      { name := "n1", parent := some 4, children := [], camera := none, mesh := none },
      { name := "n2", parent := some 4, children := [], camera := none, mesh := none },
      { name := "n3", parent := some 4, children := [], camera := none, mesh := none },
      { name := "s", parent := none, children := [0, 1, 2, 3], camera := none, mesh := none },
      { name := "default_camera", parent := none, children := [], camera := some 0,
        mesh := none }],
    rootChildren := [4, 5] }

/-- C1 evaluation at the claim's own example: the breadth-first resolution
does NOT attach each node under the node that declared it.  Because children
are enqueued with the popped entry's parent (`std::ref(root_node)` where
`root_node` names `node_it.first`), the whole hierarchy is flattened onto the
synthetic scene root: node 0 ends up with no children instead of {1,2}, node
1 with none instead of {3}, and nodes 0,1,2,3 all become children of the
scene root with their parent back-references pointing at it. -/
theorem c1_graph_builder_flattens :
    load_scene c1doc 8 = some c1scene ∧
    (c1scene.nodes.get? 0).map RNode.children = some [] ∧
    (c1scene.nodes.get? 1).map RNode.children = some [] ∧
    (c1scene.nodes.get? 4).map RNode.children = some [0, 1, 2, 3] ∧
    (c1scene.nodes.get? 1).map RNode.parent = some (some 4) ∧
    (c1scene.nodes.get? 3).map RNode.parent = some (some 4) := by
  refine ⟨by rfl, by decide, by decide, by decide, by decide, by decide⟩

/-- The C6 failing input: node 1 is declared as a child of both node 0 and
node 2, with both parents reachable as scene roots. -/
def c6doc : GltfDoc :=
  { cameras := [], meshCount := 0,
    nodes := [{ name := "n0", children := [1], mesh := -1, camera := -1 },
              { name := "n1", children := [], mesh := -1, camera := -1 },
              { name := "n2", children := [1], mesh := -1, camera := -1 }],
    scenes := [{ name := "s", nodes := [0, 2] }] }

/-- The scene the loader actually produces from `c6doc`. -/
def c6scene : SgScene :=
  { cameras := [some { name := "default_camera", params := default_camera_params,
                       node := some 4 }],
    nodes := [
      { name := "n0", parent := some 3, children := [], camera := none, mesh := none },
      { name := "n1", parent := some 3, children := [], camera := none, mesh := none },
      { name := "n2", parent := some 3, children := [], camera := none, mesh := none },
      { name := "s", parent := none, children := [0, 2, 1, 1], camera := none, mesh := none },
      { name := "default_camera", parent := none, children := [], camera := some 0,
        mesh := none }],
    rootChildren := [3, 4] }

/-- C6 counterexample: the duplicate-parent document is NOT rejected — the
load succeeds, and the tree is corrupted: node 1 appears twice in the scene
root's child list. -/
theorem c6_no_rejection :
    load_scene c6doc 8 ≠ none ∧
    ∃ s, load_scene c6doc 8 = some s ∧
      (s.nodes.get? 3).map (fun n => n.children.count 1) = some 2 := by
  refine ⟨?_, c6scene, by rfl, by decide⟩
  intro hcontra
  have : (none : Option SgScene) = some c6scene := by rw [← hcontra]; rfl
  exact absurd this (by simp)

/-- The C6 cyclic input: nodes 0 and 1 declare each other as children. -/
def c6cycdoc : GltfDoc :=
  { cameras := [], meshCount := 0,
    nodes := [{ name := "c0", children := [1], mesh := -1, camera := -1 },
              { name := "c1", children := [0], mesh := -1, camera := -1 }],
    scenes := [{ name := "s", nodes := [0] }] }

/-- One traversal step on a popped queue entry, as a rewrite rule. -/
theorem bfs_cons (doc : GltfDoc) (fuel : Nat) (p i : Nat) (rest : List (Nat × Nat))
    (nodes : List RNode) :
    bfs doc (fuel + 1) ((p, i) :: rest) nodes =
      match doc.nodes.get? i with
      | none => none
      | some g =>
        bfs doc fuel (rest ++ g.children.map (fun c => (p, c)))
          (listUpdate (listUpdate nodes i (fun n => { n with parent := some p })) p
            (fun n => { n with children := n.children ++ [i] })) := rfl

/-- On the cyclic document the traversal queue never empties — the C++ while
loop never terminates, surfacing as `none` for every fuel. -/
theorem bfs_cycle_none (fuel : Nat) :
    ∀ (queue : List (Nat × Nat)) (nodes : List RNode),
      (∀ pr ∈ queue, pr.2 < 2) → queue ≠ [] →
      bfs c6cycdoc fuel queue nodes = none := by
  induction fuel with
  | zero =>
    intro queue nodes hlt hne
    cases queue with
    | nil => exact absurd rfl hne
    | cons q rest => rfl
  | succ f ih =>
    intro queue nodes hlt hne
    cases queue with
    | nil => exact absurd rfl hne
    | cons q rest =>
      obtain ⟨p, i⟩ := q
      have hi : i < 2 := hlt (p, i) (by simp)
      rcases i with _ | _ | j
      · rw [bfs_cons]
        rw [show c6cycdoc.nodes.get? 0 =
              some { name := "c0", children := [1], mesh := -1, camera := -1 } from rfl]
        dsimp only
        apply ih
        · intro pr hpr
          rcases List.mem_append.mp hpr with hl | hr
          · exact hlt pr (List.mem_cons_of_mem _ hl)
          · simp at hr
            simp [hr]
        · simp
      · rw [bfs_cons]
        rw [show c6cycdoc.nodes.get? 1 =
              some { name := "c1", children := [0], mesh := -1, camera := -1 } from rfl]
        dsimp only
        apply ih
        · intro pr hpr
          rcases List.mem_append.mp hpr with hl | hr
          · exact hlt pr (List.mem_cons_of_mem _ hl)
          · simp at hr
            simp [hr]
        · simp
      · omega

/-- C6 (amended): the Graph Builder performs no malformed-document
validation.  A node declared as the child of two parents is not rejected: the
load succeeds, the node is attached once per declaring occurrence (here: it
appears twice in the scene root's child list, all nodes being flattened onto
the root), and its parent back-reference is simply the last attachment.  A
document with a parent/child cycle is not rejected either: the traversal
loops forever (no result for any fuel). -/
theorem c6_duplicate_and_cycle_unchecked :
    (load_scene c6doc 8 = some c6scene ∧
      (c6scene.nodes.get? 3).map RNode.children = some [0, 2, 1, 1] ∧
      (c6scene.nodes.get? 1).map RNode.parent = some (some 3)) ∧
    (∀ fuel, load_scene c6cycdoc fuel = none) := by
  refine ⟨⟨by rfl, by decide, by decide⟩, ?_⟩
  intro fuel
  have hb : ∀ ns : List RNode, bfs c6cycdoc fuel [(2, 0)] ns = none := fun ns =>
    bfs_cycle_none fuel [(2, 0)] ns (by decide) (by decide)
  unfold load_scene
  rw [show load_nodes c6cycdoc =
        some ([{ name := "c0", parent := none, children := [], camera := none,
                 mesh := none },
               { name := "c1", parent := none, children := [], camera := none,
                 mesh := none }], []) from rfl]
  dsimp only
  unfold load_scenes
  simp [load_scenes_go, hb]
